import Mathlib

/-!
Shallow embedding of the rag_system repository (document_indexing.py,
local_query.py, query_service.py, logging_config.py, shared_config.py),
together with theorems settling the frozen specification claims.

External collaborators (the vector retriever, the mxbai rerank model, the
OpenAI generation model, the llama_index query engine and semantic splitter)
are modelled as oracle functions in an `Env` record; everything the
repository's own code computes is embedded as executable Lean definitions.
Scores (Python floats used only for ordering and pass-through) are modelled
as rationals.
-/

namespace Rag

/-! ## Python string primitives used by the source -/

/-- Python `s.endswith(suffix)`. -/
def pyEndsWith (s suffix : String) : Bool := suffix.data.isSuffixOf s.data

/-- Python `s.rstrip(chars)`: removes every trailing character that is a
member of `chars` (a character *set*, not a suffix). -/
def pyRstrip (s chars : String) : String :=
  ⟨(s.data.reverse.dropWhile (fun c => chars.data.contains c)).reverse⟩

/-- Python whitespace set used by `str.strip()` (ASCII part). -/
def pyWhitespace : List Char := (" \t\n\r\x0b\x0c" : String).data

/-- Python `s.strip()` with no argument: trims whitespace on both ends. -/
def pyStrip (s : String) : String :=
  ⟨((s.data.dropWhile (fun c => pyWhitespace.contains c)).reverse.dropWhile
      (fun c => pyWhitespace.contains c)).reverse⟩

/-- Python `a or b` on an `Optional[int]`: `None` and `0` are falsy. -/
def pyOr (a : Option Int) (b : Int) : Int :=
  match a with
  | none => b
  | some n => if n = 0 then b else n

/-! ## shared_config.py -/

namespace Config

/-- Config.SIMILARITY_TOP_K (shared_config.py line 29). -/
def SIMILARITY_TOP_K : Int := 5

end Config

/-! ## Data model (dicts and response objects of the source) -/

/-- A retrieved node (llama_index NodeWithScore as the code consumes it):
its text, similarity score and metadata. -/
structure Node where
  text : String
  score : Rat
  metadata : List (String × String)
deriving DecidableEq

/-- One result of `reranker.rank(..., return_documents=True)`: the document
text and the rerank score. -/
structure RankResult where
  document : String
  score : Rat
deriving DecidableEq

/-- A query-engine response: its text (what `str(response)` yields) and its
`source_nodes`. The `MockResponse` of local_query.py has the same shape. -/
structure Response where
  text : String
  source_nodes : List Node
deriving DecidableEq

/-- The `source_info` / `doc_info` dict `{"text", "score", "metadata"}`. -/
structure SourceInfo where
  text : String
  score : Rat
  metadata : List (String × String)
deriving DecidableEq

/-- The result dict returned by `LocalQuerySystem.query` and
`QueryService.query`. -/
structure QueryResult where
  question : String
  answer : String
  sources : List SourceInfo
  processing_time : Rat
deriving DecidableEq

/-- One entry of the `sources` array written to the query log
(logging_config.py lines 72-79). -/
structure LogSource where
  rank : Nat
  similarity_score : Rat
  metadata : List (String × String)
  full_content : String
deriving DecidableEq

/-- The oracle record: every external collaborator the query-side code
calls. `retrieve q k` is `VectorIndexRetriever(similarity_top_k=k).retrieve(q)`,
`rank` is `reranker.rank`, `complete` is `llm.complete(...).text`,
`engineQuery k q` is `index.as_query_engine(similarity_top_k=k).query(q)`,
and `elapsed` is the measured wall-clock duration of a successful query. -/
structure Env where
  retrieve : String → Int → Except String (List Node)
  rank : String → List String → Int → Except String (List RankResult)
  complete : String → Except String String
  engineQuery : Int → String → Except String Response
  elapsed : Rat

/-! ## The prompt template (local_query.py lines 42-56) -/

/-- Text of the template before `{context_str}`. -/
def templateHead : String :=
  "你是一个问答机器人。\n                你的任务是根据下述给定的已知信息回答用户问题。\n\n                已知信息:\n                "

/-- Text of the template between `{context_str}` and `{query_str}`. -/
def templateMid : String :=
  "\n\n                用户问：\n                "

/-- Text of the template between `{query_str}` and the grounding block. -/
def templatePreGrounding : String := "\n\n                "

/-- Fixed fallback sentence the template mandates (its English gloss in the
specification is "I cannot answer your question"). -/
def fallbackAnswer : String := "我无法回答您的问题"

/-- Opening of the grounding block, up to the quoted fallback sentence. -/
def groundingBefore : String :=
  "如果已知信息不包含用户问题的答案，或者已知信息不足以回答用户的问题，请直接回复\""

/-- Remainder of the grounding block after the quoted fallback sentence:
the prohibition on using information outside the provided context, and the
target-language instruction. -/
def groundingAfter : String :=
  "\"。\n                请不要输出已知信息中不包含的信息或答案。\n                请用中文回答用户问题。\n                "

/-- The grounding block of the template: instructs the model to emit the
fixed fallback sentence when the context lacks the answer, forbids output
not contained in the provided context, and fixes the answer language. -/
def templateGrounding : String :=
  groundingBefore ++ fallbackAnswer ++ groundingAfter

/-- `custom_template.format(context_str=ctx, query_str=q)`: the full prompt
string sent to the generation model. -/
def customTemplate (ctx q : String) : String :=
  templateHead ++ ctx ++ templateMid ++ q ++ templatePreGrounding ++ templateGrounding

/-! ## local_query.py — LocalQuerySystem -/

namespace LocalQuerySystem

/-- `retrieve_count = (top_k or Config.SIMILARITY_TOP_K) * 2`
(local_query.py line 141). -/
def retrieveCount (top_k : Option Int) : Int :=
  pyOr top_k Config.SIMILARITY_TOP_K * 2

/-- `reranked_context = "\n\n".join([result.document for result in rerank_results])`
(local_query.py line 162). -/
def rerankedContext (results : List RankResult) : String :=
  String.intercalate "\n\n" (results.map RankResult.document)

/-- Reconstruction of `source_nodes` from the rerank results
(local_query.py lines 182-189): for each rerank result, the first retrieved
node whose text equals the result's document text, with its score replaced
by the rerank score; results with no matching node are dropped. -/
def rerankedNodes (nodes : List Node) (results : List RankResult) : List Node :=
  results.filterMap (fun r =>
    (nodes.find? (fun n => n.text == r.document)).map
      (fun n => { n with score := r.score }))

/-- The `source_info` dict built for each source node
(local_query.py lines 233-237): full text, score, metadata. -/
def localSourceInfo (n : Node) : SourceInfo :=
  { text := n.text, score := n.score, metadata := n.metadata }

/-- Effective `similarity_top_k` of the non-rerank engine and of
`get_relevant_documents` (local_query.py lines 195-204 and 282-289):
`if top_k and top_k != Config.SIMILARITY_TOP_K` a fresh retriever/engine
with `top_k` is used, otherwise the default one (built with
`Config.SIMILARITY_TOP_K`). -/
def effectiveRetrieveK : Option Int → Int
  | none => Config.SIMILARITY_TOP_K
  | some n =>
      if n ≠ 0 ∧ n ≠ Config.SIMILARITY_TOP_K then n else Config.SIMILARITY_TOP_K

/-- Body of the `try:` block of `LocalQuerySystem.query`
(local_query.py lines 136-204), producing the answer text and the final
source-node list; an error of any oracle call aborts to the `except` arm. -/
def queryCore (env : Env) (question : String) (top_k : Option Int)
    (use_rerank : Bool) : Except String (String × List Node) :=
  if use_rerank then
    match env.retrieve question (retrieveCount top_k) with
    | .error e => .error e
    | .ok nodes =>
      match env.rank question (nodes.map Node.text)
          (pyOr top_k Config.SIMILARITY_TOP_K) with
      | .error e => .error e
      | .ok rerank_results =>
        match env.complete
            (customTemplate (rerankedContext rerank_results) question) with
        | .error e => .error e
        | .ok response_text =>
            .ok (response_text, rerankedNodes nodes rerank_results)
  else
    match env.engineQuery (effectiveRetrieveK top_k) question with
    | .error e => .error e
    | .ok response => .ok (response.text, response.source_nodes)

/-- `LocalQuerySystem.query` (local_query.py lines 116-262): on success the
result dict with answer, sources (when `show_sources`) and processing time;
on any exception the `except` arm's dict with the error description as the
answer and empty sources. -/
def query (env : Env) (question : String) (top_k : Option Int)
    (show_sources : Bool) (use_rerank : Bool) : QueryResult :=
  match queryCore env question top_k use_rerank with
  | .ok (answer, nodes) =>
      { question := question, answer := answer,
        sources := if show_sources then nodes.map localSourceInfo else [],
        processing_time := env.elapsed }
  | .error e =>
      { question := question, answer := "查詢失敗: " ++ e,
        sources := [], processing_time := 0 }

/-- `LocalQuerySystem.batch_query` (local_query.py lines 371-398): runs
`query(question, show_sources=False)` over the questions in order and
collects the results. -/
def batch_query (env : Env) (questions : List String) : List QueryResult :=
  questions.map (fun q => query env q none false false)

/-- `LocalQuerySystem.get_relevant_documents` (local_query.py lines
264-320): retrieves with the effective top-k and builds `doc_info` dicts;
on an exception it returns the empty list. -/
def get_relevant_documents (env : Env) (question : String)
    (top_k : Option Int) : List SourceInfo :=
  match env.retrieve question (effectiveRetrieveK top_k) with
  | .ok nodes => nodes.map localSourceInfo
  | .error _ => []

end LocalQuerySystem

/-! ## query_service.py — QueryService -/

namespace QueryService

/-- Effective `similarity_top_k` of the service's engine and retriever
(query_service.py lines 133-141 and 185-192), same selection pattern as the
local system. -/
def effectiveRetrieveK : Option Int → Int
  | none => Config.SIMILARITY_TOP_K
  | some n =>
      if n ≠ 0 ∧ n ≠ Config.SIMILARITY_TOP_K then n else Config.SIMILARITY_TOP_K

/-- The `source_info` dict of `QueryService.query` (query_service.py lines
150-154): the text is truncated to its first 200 characters plus "..."
when longer than 200 characters. -/
def qsSourceInfo (n : Node) : SourceInfo :=
  { text := if n.text.length > 200 then n.text.take 200 ++ "..." else n.text,
    score := n.score, metadata := n.metadata }

/-- The `doc_info` dict of `QueryService.get_relevant_documents`
(query_service.py lines 197-201): full node text. -/
def qsDocInfo (n : Node) : SourceInfo :=
  { text := n.text, score := n.score, metadata := n.metadata }

/-- `QueryService.query` (query_service.py lines 116-167): on success the
result dict; on an exception an HTTP 500 error with the descriptive
detail message. -/
def query (env : Env) (question : String) (top_k : Option Int) :
    Except String QueryResult :=
  match env.engineQuery (effectiveRetrieveK top_k) question with
  | .ok response =>
      .ok { question := question, answer := response.text,
            sources := response.source_nodes.map qsSourceInfo,
            processing_time := env.elapsed }
  | .error e => .error ("查詢處理失敗: " ++ e)

/-- The response dict of `QueryService.get_relevant_documents`
(query_service.py lines 204-208). -/
structure RelevantDocs where
  question : String
  documents : List SourceInfo
  total_count : Nat
deriving DecidableEq

/-- `QueryService.get_relevant_documents` (query_service.py lines 169-211). -/
def get_relevant_documents (env : Env) (question : String)
    (top_k : Option Int) : Except String RelevantDocs :=
  match env.retrieve question (effectiveRetrieveK top_k) with
  | .ok nodes =>
      .ok { question := question, documents := nodes.map qsDocInfo,
            total_count := (nodes.map qsDocInfo).length }
  | .error e => .error ("文檔檢索失敗: " ++ e)

end QueryService

/-- Specification-worded truncation policy: first 200 characters followed by
"..." when the chunk text is longer than 200 characters, the full text
otherwise (to be compared against `QueryService.qsSourceInfo`). -/
def specTruncatedText (t : String) : String :=
  if 200 < t.length then t.take 200 ++ "..." else t

/-- One entry of the query log's `sources` array
(logging_config.py lines 72-79): rank, score, metadata, and the *full*
source text as `full_content`. -/
def logSource (rank : Nat) (s : SourceInfo) : LogSource :=
  { rank := rank, similarity_score := s.score, metadata := s.metadata,
    full_content := s.text }

/-! ## document_indexing.py — DataIngestion -/

namespace DataIngestion

/-- A pdfminer layout element: either an `LTTextContainer` carrying text, or
any other element kind (ignored by the extraction loop). -/
inductive LTElement where
  | textContainer (text : String)
  | other
deriving DecidableEq

/-- Per-fragment hyphen handling (document_indexing.py lines 104-108):
`if text.endswith('-\n'): text = text.rstrip('-\n')`. Note that
`rstrip('-\n')` strips the character *set* `{'-', '\n'}` from the end. -/
def dehyphenate (text : String) : String :=
  if pyEndsWith text "-\n" then pyRstrip text "-\n" else text

/-- Text a single page contributes to `full_text`: the dehyphenated texts
of its `LTTextContainer` elements, concatenated in element order. -/
def pageText (page : List LTElement) : String :=
  page.foldl
    (fun acc el =>
      match el with
      | .textContainer t => acc ++ dehyphenate t
      | .other => acc) ""

/-- Page filter (document_indexing.py lines 99-100): a page index is
processed when `page_numbers` is absent or contains it. -/
def pageSelected (page_numbers : Option (List Nat)) (i : Nat) : Bool :=
  match page_numbers with
  | none => true
  | some pns => pns.contains i

/-- Accumulation of `full_text` over the pages starting at page index `i`
(document_indexing.py lines 97-108). -/
def extractPagesFrom (i : Nat) (pages : List (List LTElement))
    (page_numbers : Option (List Nat)) : String :=
  match pages with
  | [] => ""
  | page :: rest =>
      (if pageSelected page_numbers i then pageText page else "") ++
        extractPagesFrom (i + 1) rest page_numbers

/-- The complete `full_text` of `extract_text_from_pdf`. -/
def extractFullText (pages : List (List LTElement))
    (page_numbers : Option (List Nat)) : String :=
  extractPagesFrom 0 pages page_numbers

/-- `DataIngestion.extract_text_from_pdf` (document_indexing.py lines
82-128). The semantic splitter (`node_parser.get_nodes_from_documents`,
external llama_index code) is the oracle `split`; when `full_text.strip()`
is empty the function returns `[]` (reporting, not raising), and any
exception (for example the splitter's embedding backend being unreachable)
also yields `[]` through the `except` arm. Chunks whose stripped text is
empty are filtered out. -/
def extract_text_from_pdf (split : String → Except String (List String))
    (pdf : List (List LTElement)) (page_numbers : Option (List Nat)) :
    List String :=
  let full_text := extractFullText pdf page_numbers
  if pyStrip full_text = "" then []
  else
    match split (pyStrip full_text) with
    | .ok nodeTexts => nodeTexts.filter (fun t => pyStrip t ≠ "")
    | .error _ => []

/-- A llama_index `Document` as the ingestion code builds it: text plus
metadata. -/
structure PDoc where
  text : String
  metadata : List (String × String)
deriving DecidableEq

/-- `DataIngestion.process_documents_from_pdf` (document_indexing.py lines
130-157): one `Document` per extracted paragraph whose stripped text is
non-empty, with source/paragraph metadata. -/
def process_documents_from_pdf (split : String → Except String (List String))
    (pdf : List (List LTElement)) (page_numbers : Option (List Nat))
    (pdf_path : String) : List PDoc :=
  let paragraphs := extract_text_from_pdf split pdf page_numbers
  paragraphs.enum.filterMap (fun p =>
    if pyStrip p.2 ≠ "" then
      some { text := p.2,
             metadata := [("source", pdf_path), ("paragraph_id", toString p.1),
                          ("source_type", "pdf")] }
    else none)

/-- `DataIngestion.process_documents_from_text` (document_indexing.py lines
159-185): one `Document` per input text whose stripped text is non-empty. -/
def process_documents_from_text (texts : List String) (source : String) :
    List PDoc :=
  texts.enum.filterMap (fun p =>
    if pyStrip p.2 ≠ "" then
      some { text := p.2,
             metadata := [("source", source), ("text_id", toString p.1),
                          ("source_type", "text")] }
    else none)

/-- The `TextNode`s `DataIngestion.ingest_documents` builds from the
documents before embedding and storing them (document_indexing.py lines
202-210): text and metadata are carried over unchanged. -/
def ingest_nodes (documents : List PDoc) : List PDoc :=
  documents.map (fun d => { text := d.text, metadata := d.metadata })

/-- Text carried by a layout element, if any. -/
def elementTextOf : LTElement → Option String
  | .textContainer t => some t
  | .other => none

end DataIngestion

/-- Specification-worded de-hyphenation: remove exactly the trailing
hyphen-plus-line-break (two characters) from a fragment that ends in one,
leave every other fragment unchanged (to be compared against
`DataIngestion.dehyphenate`). -/
def specDehyphenate (text : String) : String :=
  if pyEndsWith text "-\n" then ⟨text.data.dropLast.dropLast⟩ else text

/-! ## Contract of the external rerank provider -/

/-- Rerank scores in non-increasing order. -/
def ScoresDescending (rs : List RankResult) : Prop :=
  List.Chain' (fun a b => b.score ≤ a.score) rs

/-- Modelled from the spec: contract of the external relevance/rerank
provider (`MxbaiRerankV2.rank`, not repository code) as stated in §4.5 and
§6 of the specification — the output is an ordered subset of the input
texts, of length at most `min(k, len(candidates))`, in descending rerank
score order. -/
structure RerankerContract
    (rank : String → List String → Int → Except String (List RankResult)) :
    Prop where
  length_le : ∀ q docs k rs, rank q docs k = .ok rs →
    rs.length ≤ min k.toNat docs.length
  descending : ∀ q docs k rs, rank q docs k = .ok rs → ScoresDescending rs
  subset : ∀ q docs k rs, rank q docs k = .ok rs →
    ∀ r ∈ rs, r.document ∈ docs

/-! ## Concrete environments used by witnesses and counterexamples -/

/-- A concrete retrieved node. -/
def node1 : Node := { text := "候選文件", score := 1, metadata := [] }

/-- Environment whose reranker raises ("reranker unavailable"), while the
retriever succeeds with one candidate. -/
def envRerankDown : Env :=
  { retrieve := fun _ _ => .ok [node1],
    rank := fun _ _ _ => .error "rerank 不可用",
    complete := fun _ => .ok "答案",
    engineQuery := fun _ _ => .ok { text := "答案", source_nodes := [node1] },
    elapsed := 1 }

/-- Environment whose query engine raises at generation time. -/
def envLlmDown : Env :=
  { retrieve := fun _ _ => .error "x",
    rank := fun _ _ _ => .error "x",
    complete := fun _ => .error "x",
    engineQuery := fun _ _ => .error "LLM 連線失敗",
    elapsed := 1 }

/-- Environment whose retriever returns zero candidates, whose reranker
returns the empty ranking, and whose generation model obeys the grounding
contract by emitting the fixed fallback sentence. -/
def envEmptyIndex : Env :=
  { retrieve := fun _ _ => .ok [],
    rank := fun _ _ _ => .ok [],
    complete := fun _ => .ok fallbackAnswer,
    engineQuery := fun _ _ => .ok { text := fallbackAnswer, source_nodes := [] },
    elapsed := 1 }

/-- A concrete reranker that keeps the first `k` documents with score 0:
it satisfies the spec contract of the rerank provider. -/
def rankTake : String → List String → Int → Except String (List RankResult) :=
  fun _ docs k => .ok ((docs.take k.toNat).map (fun d => { document := d, score := 0 }))

/-- Environment with two retrievable candidates and the `rankTake`
reranker. -/
def envTwoDocs : Env :=
  { retrieve := fun _ _ => .ok
      [{ text := "文件甲", score := 1, metadata := [] },
       { text := "文件乙", score := 2, metadata := [] }],
    rank := rankTake,
    complete := fun _ => .ok "答案",
    engineQuery := fun _ _ => .ok { text := "答案", source_nodes := [] },
    elapsed := 0 }

/-- Environment whose query engine succeeds with no source nodes. -/
def envPlainAnswer : Env :=
  { retrieve := fun _ _ => .ok [],
    rank := fun _ _ _ => .ok [],
    complete := fun _ => .ok "答案",
    engineQuery := fun _ _ => .ok { text := "答案", source_nodes := [] },
    elapsed := 0 }

/-! ## Theorems -/

/-- C5: every candidate in the reconstructed post-rerank source-node list is
matched back to the retrieved input candidates by exact text equality, so no
candidate whose text is not present among the input candidates appears in
the rerank output. -/
theorem rerank_output_text_subset_of_input (nodes : List Node)
    (results : List RankResult) (n : Node)
    (hn : n ∈ LocalQuerySystem.rerankedNodes nodes results) :
    n.text ∈ nodes.map Node.text := by
  unfold LocalQuerySystem.rerankedNodes at hn
  rcases List.mem_filterMap.mp hn with ⟨r, _, hmap⟩
  rcases Option.map_eq_some'.mp hmap with ⟨m, hfind, rfl⟩
  exact List.mem_map.mpr ⟨m, List.mem_of_find?_eq_some hfind, rfl⟩

/-- Witness for C5 at a concrete rerank invocation. -/
theorem rerank_output_text_subset_of_input_witness :
    (Node.mk "候選文件" 2 []).text ∈ ([node1] : List Node).map Node.text :=
  rerank_output_text_subset_of_input [node1]
    [{ document := "候選文件", score := 2 }] (Node.mk "候選文件" 2 []) (by decide)

/-- C6: the code's de-hyphenation diverges from removing exactly the
trailing hyphen-plus-line-break. On the fragment `"foo--\n"` (which does
end in `-\n`), `rstrip('-\n')` strips the whole trailing run of `-` and
`\n` characters and yields `"foo"`, while removing exactly the trailing
`-\n` yields `"foo-"`: the second hyphen, a genuine character of the
fragment, is dropped. -/
theorem dehyphenation_strips_too_much :
    DataIngestion.dehyphenate "foo--\n" = "foo" ∧
    specDehyphenate "foo--\n" = "foo-" ∧
    DataIngestion.dehyphenate "foo--\n" ≠ specDehyphenate "foo--\n" := by
  decide

/-- C9: when the requested count is a positive integer it is used as the
retrieval count, and when it is unset the configured default
`Config.SIMILARITY_TOP_K = 5` is used — in both the local system's and the
HTTP service's `get_relevant_documents`. -/
theorem retrieval_topk_positive_or_default (k : Option Int)
    (hpos : ∀ n, k = some n → 0 < n) :
    LocalQuerySystem.effectiveRetrieveK k = k.getD Config.SIMILARITY_TOP_K ∧
    QueryService.effectiveRetrieveK k = k.getD Config.SIMILARITY_TOP_K ∧
    LocalQuerySystem.effectiveRetrieveK none = 5 ∧
    QueryService.effectiveRetrieveK none = 5 ∧
    Config.SIMILARITY_TOP_K = 5 := by
  refine ⟨?_, ?_, rfl, rfl, rfl⟩ <;>
  · rcases k with _ | n
    · rfl
    · have hn : n ≠ 0 := by
        intro h
        exact absurd (hpos n rfl) (by simp [h])
      by_cases h5 : n = Config.SIMILARITY_TOP_K
      · simp [LocalQuerySystem.effectiveRetrieveK, QueryService.effectiveRetrieveK, h5]
      · simp [LocalQuerySystem.effectiveRetrieveK, QueryService.effectiveRetrieveK, hn, h5]

/-- Witness for C9 at the concrete count 3. -/
theorem retrieval_topk_positive_or_default_witness :
    LocalQuerySystem.effectiveRetrieveK (some 3) =
      (some (3 : Int)).getD Config.SIMILARITY_TOP_K ∧
    QueryService.effectiveRetrieveK (some 3) =
      (some (3 : Int)).getD Config.SIMILARITY_TOP_K ∧
    LocalQuerySystem.effectiveRetrieveK none = 5 ∧
    QueryService.effectiveRetrieveK none = 5 ∧
    Config.SIMILARITY_TOP_K = 5 :=
  retrieval_topk_positive_or_default (some 3) (by intro n h; cases h; decide)

/-- C10: every source returned by the HTTP query service carries the chunk
text truncated to its first 200 characters plus "..." exactly when the
chunk text is longer than 200 characters (the full text otherwise), while
the documents-only retrieval path and the local query system's sources and
query log all carry the full chunk text. -/
theorem http_source_text_truncated (env : Env) (q : String) (k : Option Int)
    (resp : Response)
    (h : env.engineQuery (QueryService.effectiveRetrieveK k) q = .ok resp) :
    QueryService.query env q k = .ok
      { question := q, answer := resp.text,
        sources := resp.source_nodes.map QueryService.qsSourceInfo,
        processing_time := env.elapsed } ∧
    (∀ n : Node, (QueryService.qsSourceInfo n).text = specTruncatedText n.text) ∧
    (∀ n : Node, 200 < n.text.length →
        (QueryService.qsSourceInfo n).text = n.text.take 200 ++ "...") ∧
    (∀ n : Node, n.text.length ≤ 200 →
        (QueryService.qsSourceInfo n).text = n.text) ∧
    (∀ n : Node, (QueryService.qsDocInfo n).text = n.text) ∧
    (∀ n : Node, (LocalQuerySystem.localSourceInfo n).text = n.text) ∧
    (∀ (i : Nat) (s : SourceInfo), (logSource i s).full_content = s.text) := by
  refine ⟨?_, fun n => rfl, fun n hn => ?_, fun n hn => ?_,
    fun n => rfl, fun n => rfl, fun i s => rfl⟩
  · unfold QueryService.query
    rw [h]
  · simp only [QueryService.qsSourceInfo]
    rw [if_pos hn]
  · simp only [QueryService.qsSourceInfo]
    rw [if_neg (by omega)]

/-- Witness for C10 at a concrete service query. -/
theorem http_source_text_truncated_witness :
    QueryService.query envPlainAnswer "問" none = .ok
      { question := "問", answer := "答案", sources := [], processing_time := 0 } :=
  (http_source_text_truncated envPlainAnswer "問" none
    { text := "答案", source_nodes := [] } rfl).1

/-- C1 counterexample: with a reranker that raises while the retriever
succeeds with one candidate, the query result's source list is empty — it
is not the un-reranked Retriever output, contrary to the claimed fallback —
and the answer is the error description. -/
theorem rerank_failure_no_fallback_cex :
    envRerankDown.retrieve "問題" (LocalQuerySystem.retrieveCount none) =
      .ok [node1] ∧
    (LocalQuerySystem.query envRerankDown "問題" none true true).sources = [] ∧
    (LocalQuerySystem.query envRerankDown "問題" none true true).sources ≠
      [LocalQuerySystem.localSourceInfo node1] ∧
    (LocalQuerySystem.query envRerankDown "問題" none true true).answer =
      "查詢失敗: rerank 不可用" := by
  refine ⟨rfl, rfl, ?_, rfl⟩
  have h : (LocalQuerySystem.query envRerankDown "問題" none true true).sources = [] := rfl
  rw [h]
  decide

/-- C1 amended: when the reranker raises, the query does not propagate the
exception but it also does not fall back to the un-reranked Retriever
output — the `except` arm returns a well-formed result whose answer carries
the error description and whose source list is empty. -/
theorem rerank_failure_yields_error_result (env : Env) (q : String)
    (k : Option Int) (ss : Bool) (nodes : List Node) (e : String)
    (hr : env.retrieve q (LocalQuerySystem.retrieveCount k) = .ok nodes)
    (hrank : env.rank q (nodes.map Node.text)
      (pyOr k Config.SIMILARITY_TOP_K) = .error e) :
    LocalQuerySystem.query env q k ss true =
      { question := q, answer := "查詢失敗: " ++ e, sources := [],
        processing_time := 0 } := by
  unfold LocalQuerySystem.query LocalQuerySystem.queryCore
  rw [if_pos rfl, hr]
  simp only [hrank]

/-- Witness for the C1 amended theorem at a concrete failing reranker. -/
theorem rerank_failure_yields_error_result_witness :
    LocalQuerySystem.query envRerankDown "問題" none true true =
      { question := "問題", answer := "查詢失敗: rerank 不可用", sources := [],
        processing_time := 0 } :=
  rerank_failure_yields_error_result envRerankDown "問題" none true [node1]
    "rerank 不可用" rfl rfl

/-- C2: a query whose processing raises is converted at the query boundary
into a well-formed result whose answer carries the error description and
whose source list is empty; and batch mode maps the single-query path over
the questions, so the result list has exactly one entry per question, in
input order, each produced independently of the others' success. -/
theorem query_failure_and_batch_shape (env : Env) (q : String)
    (k : Option Int) (ss ur : Bool) (e : String) (questions : List String)
    (herr : LocalQuerySystem.queryCore env q k ur = .error e) :
    LocalQuerySystem.query env q k ss ur =
      { question := q, answer := "查詢失敗: " ++ e, sources := [],
        processing_time := 0 } ∧
    (LocalQuerySystem.batch_query env questions).length = questions.length ∧
    (∀ (i : Nat) (qq : String), questions[i]? = some qq →
      (LocalQuerySystem.batch_query env questions)[i]? =
        some (LocalQuerySystem.query env qq none false false)) := by
  refine ⟨?_, ?_, ?_⟩
  · unfold LocalQuerySystem.query
    rw [herr]
  · simp [LocalQuerySystem.batch_query]
  · intro i qq h
    simp [LocalQuerySystem.batch_query, List.getElem?_map, h]

/-- Witness for C2 at a concrete failing generation call and a 2-question
batch. -/
theorem query_failure_and_batch_shape_witness :
    LocalQuerySystem.query envLlmDown "問" none true false =
      { question := "問", answer := "查詢失敗: LLM 連線失敗", sources := [],
        processing_time := 0 } ∧
    (LocalQuerySystem.batch_query envLlmDown ["甲", "乙"]).length = 2 := by
  have h := query_failure_and_batch_shape envLlmDown "問" none true false
    "LLM 連線失敗" ["甲", "乙"] rfl
  exact ⟨h.1, h.2.1⟩

/-- A chain holds on any list when the relation holds universally. -/
theorem chain'_of_forall {α : Type} {r : α → α → Prop} (h : ∀ a b, r a b) :
    ∀ l : List α, List.Chain' r l := by
  intro l
  induction l with
  | nil => exact List.chain'_nil
  | cons a t ih =>
    cases t with
    | nil => simp
    | cons b u => exact List.Chain'.cons (h a b) ih

/-- The `rankTake` reranker satisfies the spec contract of the rerank
provider. -/
theorem rankTake_contract : RerankerContract rankTake := by
  constructor
  · intro q docs k rs h
    simp only [rankTake, Except.ok.injEq] at h
    subst h
    simp
  · intro q docs k rs h
    simp only [rankTake, Except.ok.injEq] at h
    subst h
    unfold ScoresDescending
    rw [List.chain'_map]
    exact chain'_of_forall (fun a b => le_refl 0) _
  · intro q docs k rs h r hr
    simp only [rankTake, Except.ok.injEq] at h
    subst h
    rcases List.mem_map.mp hr with ⟨d, hd, rfl⟩
    exact List.take_subset _ _ hd

/-- The constant-empty reranker of `envEmptyIndex` satisfies the spec
contract of the rerank provider. -/
theorem emptyRank_contract : RerankerContract envEmptyIndex.rank := by
  constructor
  · intro q docs k rs h
    simp only [envEmptyIndex, Except.ok.injEq] at h
    subst h
    simp
  · intro q docs k rs h
    simp only [envEmptyIndex, Except.ok.injEq] at h
    subst h
    exact List.chain'_nil
  · intro q docs k rs h r hr
    simp only [envEmptyIndex, Except.ok.injEq] at h
    subst h
    simp at hr

/-- C4: with reranking requested, the retrieval stage fetches twice the
desired final count (explicit `top_k` or the configured default), and —
under the rerank provider's contract — the rerank stage returns at most
`min(k, number of retrieved candidates)` results, ordered by descending
rerank score. -/
theorem rerank_overfetch_and_bounds (env : Env) (q : String)
    (k : Option Int) (nodes : List Node) (rs : List RankResult)
    (hc : RerankerContract env.rank)
    (_hr : env.retrieve q (LocalQuerySystem.retrieveCount k) = .ok nodes)
    (hrank : env.rank q (nodes.map Node.text)
      (pyOr k Config.SIMILARITY_TOP_K) = .ok rs) :
    LocalQuerySystem.retrieveCount k = pyOr k Config.SIMILARITY_TOP_K * 2 ∧
    rs.length ≤ min (pyOr k Config.SIMILARITY_TOP_K).toNat nodes.length ∧
    ScoresDescending rs := by
  refine ⟨rfl, ?_, hc.descending _ _ _ _ hrank⟩
  have h := hc.length_le _ _ _ _ hrank
  simpa using h

/-- Witness for C4 at a concrete two-candidate retrieval with the
`rankTake` reranker. -/
theorem rerank_overfetch_and_bounds_witness :
    LocalQuerySystem.retrieveCount none = pyOr none Config.SIMILARITY_TOP_K * 2 ∧
    ([{ document := "文件甲", score := 0 }, { document := "文件乙", score := 0 }] :
        List RankResult).length ≤
      min (pyOr none Config.SIMILARITY_TOP_K).toNat
        ([{ text := "文件甲", score := 1, metadata := [] },
          { text := "文件乙", score := 2, metadata := [] }] : List Node).length ∧
    ScoresDescending
      [{ document := "文件甲", score := 0 }, { document := "文件乙", score := 0 }] :=
  rerank_overfetch_and_bounds envTwoDocs "問" none
    [{ text := "文件甲", score := 1, metadata := [] },
     { text := "文件乙", score := 2, metadata := [] }]
    [{ document := "文件甲", score := 0 }, { document := "文件乙", score := 0 }]
    rankTake_contract rfl rfl

/-- C3: when the retriever returns zero candidates, the context assembled
for the generation model is the empty string and — given the generation
model's grounding contract (an external collaborator: it answers the
empty-context prompt with the template's mandated fallback) — the returned
answer is exactly the fixed fallback sentence; moreover every prompt built
by the template ends with the grounding block verbatim, which mandates the
fallback sentence, forbids output not contained in the provided context
and fixes the answer language. -/
theorem empty_retrieval_grounded_fallback (env : Env) (q : String)
    (k : Option Int) (ss : Bool) (rs : List RankResult)
    (hc : RerankerContract env.rank)
    (hretr : env.retrieve q (LocalQuerySystem.retrieveCount k) = .ok [])
    (hrank : env.rank q [] (pyOr k Config.SIMILARITY_TOP_K) = .ok rs)
    (hllm : env.complete (customTemplate "" q) = .ok fallbackAnswer) :
    LocalQuerySystem.rerankedContext rs = "" ∧
    (LocalQuerySystem.query env q k ss true).answer = fallbackAnswer ∧
    (∀ ctx q2, ∃ s, customTemplate ctx q2 = s ++ templateGrounding) ∧
    templateGrounding = groundingBefore ++ fallbackAnswer ++ groundingAfter := by
  have hrs : rs = [] := by
    have h := hc.length_le _ _ _ _ hrank
    simpa using h
  subst hrs
  refine ⟨rfl, ?_, ?_, rfl⟩
  · unfold LocalQuerySystem.query LocalQuerySystem.queryCore
    rw [if_pos rfl, hretr]
    simp only [List.map_nil, hrank,
      show LocalQuerySystem.rerankedContext [] = "" from rfl, hllm]
  · intro ctx q2
    exact ⟨templateHead ++ ctx ++ templateMid ++ q2 ++ templatePreGrounding,
      by simp [customTemplate, String.append_assoc]⟩

/-- Witness for C3 at a concrete empty index with a grounded generation
model. -/
theorem empty_retrieval_grounded_fallback_witness :
    (LocalQuerySystem.query envEmptyIndex "問" none true true).answer =
      fallbackAnswer := by
  have h := empty_retrieval_grounded_fallback envEmptyIndex "問" none true []
    emptyRank_contract rfl rfl rfl
  exact h.2.1

/-- C7: every `Document` built by either ingest path, and every `TextNode`
derived from it for indexing, has text whose stripped form is non-empty —
whitespace-only chunks are discarded before a `Document` is created. -/
theorem persisted_chunk_text_not_whitespace
    (split : String → Except String (List String))
    (pdf : List (List DataIngestion.LTElement)) (pns : Option (List Nat))
    (path : String) (texts : List String) (src : String) :
    (∀ d ∈ DataIngestion.process_documents_from_pdf split pdf pns path,
        pyStrip d.text ≠ "") ∧
    (∀ d ∈ DataIngestion.process_documents_from_text texts src,
        pyStrip d.text ≠ "") ∧
    (∀ n ∈ DataIngestion.ingest_nodes
        (DataIngestion.process_documents_from_pdf split pdf pns path),
        pyStrip n.text ≠ "") ∧
    (∀ n ∈ DataIngestion.ingest_nodes
        (DataIngestion.process_documents_from_text texts src),
        pyStrip n.text ≠ "") := by
  have hpdf : ∀ d ∈ DataIngestion.process_documents_from_pdf split pdf pns path,
      pyStrip d.text ≠ "" := by
    intro d hd
    rcases List.mem_filterMap.mp hd with ⟨p, _, hf⟩
    by_cases hs : pyStrip p.2 = ""
    · rw [if_neg (not_not_intro hs)] at hf
      cases hf
    · rw [if_pos hs] at hf
      injection hf with h
      subst h
      exact hs
  have htext : ∀ d ∈ DataIngestion.process_documents_from_text texts src,
      pyStrip d.text ≠ "" := by
    intro d hd
    rcases List.mem_filterMap.mp hd with ⟨p, _, hf⟩
    by_cases hs : pyStrip p.2 = ""
    · rw [if_neg (not_not_intro hs)] at hf
      cases hf
    · rw [if_pos hs] at hf
      injection hf with h
      subst h
      exact hs
  refine ⟨hpdf, htext, ?_, ?_⟩ <;>
  · intro n hn
    rcases List.mem_map.mp hn with ⟨d, hd, rfl⟩
    first
    | exact hpdf d hd
    | exact htext d hd

/-- Witness for C7 on a concrete text ingest containing a whitespace-only
entry. -/
theorem persisted_chunk_text_not_whitespace_witness :
    pyStrip (DataIngestion.PDoc.mk "資料"
      [("source", "s"), ("text_id", "0"), ("source_type", "text")]).text ≠ "" := by
  have h := persisted_chunk_text_not_whitespace (fun _ => Except.ok [])
    [] none "p" ["資料", " "] "s"
  exact h.2.1 (DataIngestion.PDoc.mk "資料"
    [("source", "s"), ("text_id", "0"), ("source_type", "text")]) (by decide)

/-- A page whose text containers all carry empty text contributes nothing
to `full_text`. -/
theorem pageText_empty_of_no_text (page : List DataIngestion.LTElement)
    (h : ∀ el ∈ page, DataIngestion.elementTextOf el = none ∨
      DataIngestion.elementTextOf el = some "") :
    DataIngestion.pageText page = "" := by
  have hgen : ∀ (p : List DataIngestion.LTElement),
      (∀ el ∈ p, DataIngestion.elementTextOf el = none ∨
        DataIngestion.elementTextOf el = some "") →
      ∀ acc : String,
        p.foldl (fun acc el =>
          match el with
          | .textContainer t => acc ++ DataIngestion.dehyphenate t
          | .other => acc) acc = acc := by
    intro p
    induction p with
    | nil => intro _ _; rfl
    | cons el rest ih =>
      intro hp acc
      have hrest : ∀ e ∈ rest, DataIngestion.elementTextOf e = none ∨
          DataIngestion.elementTextOf e = some "" :=
        fun e he => hp e (List.mem_cons_of_mem _ he)
      cases el with
      | other => exact ih hrest acc
      | textContainer t =>
        have ht : t = "" := by
          rcases hp _ (List.mem_cons_self _ _) with h0 | h0
          · cases h0
          · exact (Option.some.injEq _ _ ▸ h0 : t = "")
        subst ht
        have hstep : acc ++ DataIngestion.dehyphenate "" = acc := by
          rw [show DataIngestion.dehyphenate "" = "" from rfl]
          simp
        simpa [hstep] using ih hrest acc
  exact hgen page h ""

/-- Accumulated `full_text` is empty when every selected page carries no
text content. -/
theorem extractPagesFrom_empty_of_no_text (pns : Option (List Nat)) :
    ∀ (pdf : List (List DataIngestion.LTElement)) (i : Nat),
      (∀ (j : Nat) (page : List DataIngestion.LTElement), pdf[j]? = some page →
        DataIngestion.pageSelected pns (i + j) = true →
        ∀ el ∈ page, DataIngestion.elementTextOf el = none ∨
          DataIngestion.elementTextOf el = some "") →
      DataIngestion.extractPagesFrom i pdf pns = "" := by
  intro pdf
  induction pdf with
  | nil => intro _ _; rfl
  | cons page rest ih =>
    intro i h
    have hrest : ∀ (j : Nat) (p : List DataIngestion.LTElement),
        rest[j]? = some p → DataIngestion.pageSelected pns (i + 1 + j) = true →
        ∀ el ∈ p, DataIngestion.elementTextOf el = none ∨
          DataIngestion.elementTextOf el = some "" := by
      intro j p hj hsel
      exact h (j + 1) p (by simpa using hj)
        (by rwa [show i + 1 + j = i + (j + 1) by omega] at hsel)
    simp only [DataIngestion.extractPagesFrom]
    rw [ih (i + 1) hrest]
    by_cases hsel : DataIngestion.pageSelected pns i = true
    · rw [if_pos hsel,
        pageText_empty_of_no_text page (h 0 page (by simp) (by simpa using hsel))]
      rfl
    · rw [if_neg hsel]
      rfl

/-- C8: when no text content exists across the selected pages, extraction
returns the empty sequence (through the reported no-text early return),
rather than raising. -/
theorem extraction_no_text_returns_empty
    (split : String → Except String (List String))
    (pdf : List (List DataIngestion.LTElement)) (pns : Option (List Nat))
    (h : ∀ (j : Nat) (page : List DataIngestion.LTElement), pdf[j]? = some page →
      DataIngestion.pageSelected pns j = true →
      ∀ el ∈ page, DataIngestion.elementTextOf el = none ∨
        DataIngestion.elementTextOf el = some "") :
    DataIngestion.extract_text_from_pdf split pdf pns = [] := by
  have hfull : DataIngestion.extractFullText pdf pns = "" :=
    extractPagesFrom_empty_of_no_text pns pdf 0
      (fun j page hj hsel => h j page hj (by simpa using hsel))
  unfold DataIngestion.extract_text_from_pdf
  rw [hfull]
  rfl

/-- Witness for C8: a two-page document whose only selected page carries an
empty text container. -/
theorem extraction_no_text_returns_empty_witness :
    DataIngestion.extract_text_from_pdf (fun _ => Except.ok ["甲"])
      [[DataIngestion.LTElement.textContainer "hi"],
       [DataIngestion.LTElement.textContainer ""]] (some [1]) = [] := by
  apply extraction_no_text_returns_empty
  intro j page hj hsel el hel
  match j with
  | 0 => exact absurd hsel (by decide)
  | 1 =>
    simp only [List.getElem?_cons_succ, List.getElem?_cons_zero,
      Option.some.injEq] at hj
    subst hj
    simp only [List.mem_singleton] at hel
    subst hel
    right
    rfl
  | (n + 2) => simp at hj

end Rag
